import Mathlib

/-!
Verification of the bridge factory and data model of the
`macos-ui-automation-mcp` repository.

The first part embeds `src/macos_ui_automation/bridges/factory.py` as pure
Lean functions over an explicit `FactoryState` record standing for the three
module-level singleton slots (`_pyobjc_bridge`, `_workspace_bridge`,
`_application_bridge`).  Functions that in Python read or write these globals
take the state as an argument and return the possibly-updated state; functions
that may raise return an `Except` value; calls to the logger are collected in
a returned list of `LogEntry`.

The second part models the Pydantic data model (`models/types.py`, whose
implementation is not among the shown sources) from the specification and its
unit tests, together with its serialization (`model_dump`) and
reconstruction-by-validation.
-/

/-- Modelled from the spec: an opaque fixture element handle
(`FakeAXUIElement` from `bridges/fake_bridge.py`, not among the shown
sources); the factory never inspects it. -/
structure FakeAXUIElement where
  id : Nat
deriving DecidableEq

/-- Modelled from the spec: an opaque fixture record for a running
application (`FakeNSRunningApplication` from `bridges/fake_bridge.py`, not
among the shown sources); the factory never inspects it. -/
structure FakeNSRunningApplication where
  id : Nat
deriving DecidableEq

/-- Modelled from the spec: the identity of a `PyObjCBridge` instance.
`fakePyObjCBridge none` is a default-constructed `FakePyObjCBridge()`;
`fakePyObjCBridge (some apps)` is `FakePyObjCBridge(apps)` built from a
PID-to-element fixture mapping; `injected` stands for an arbitrary instance
supplied through dependency injection. -/
inductive PyObjCBridge where
  | fakePyObjCBridge (applications : Option (List (Nat × FakeAXUIElement)))
  | realPyObjCBridge
  | injected (id : Nat)
deriving DecidableEq

/-- Modelled from the spec: the identity of a `WorkspaceBridge` instance. -/
inductive WorkspaceBridge where
  | fakeWorkspaceBridge (running_apps : Option (List FakeNSRunningApplication))
  | realWorkspaceBridge
  | injected (id : Nat)
deriving DecidableEq

/-- Modelled from the spec: the identity of an `ApplicationBridge` instance. -/
inductive ApplicationBridge where
  | fakeApplicationBridge
  | realApplicationBridge
  | injected (id : Nat)
deriving DecidableEq

/-- A triple of bridge instances as returned by the factory constructors. -/
structure BridgeTriple where
  pyobjc : PyObjCBridge
  workspace : WorkspaceBridge
  application : ApplicationBridge
deriving DecidableEq

/-- Whether all three members of a triple are fake implementations. -/
def BridgeTriple.isFake : BridgeTriple → Bool
  | ⟨.fakePyObjCBridge _, .fakeWorkspaceBridge _, .fakeApplicationBridge⟩ => true
  | _ => false

/-- The three module-level singleton slots of `bridges/factory.py`
(`_pyobjc_bridge`, `_workspace_bridge`, `_application_bridge`), each
initially `None`. -/
structure FactoryState where
  pyobjcBridge : Option PyObjCBridge
  workspaceBridge : Option WorkspaceBridge
  applicationBridge : Option ApplicationBridge
deriving DecidableEq

/-- All three singleton slots are set. -/
def FactoryState.allSet (s : FactoryState) : Bool :=
  s.pyobjcBridge.isSome && s.workspaceBridge.isSome && s.applicationBridge.isSome

/-- At least one singleton slot is unset. -/
def FactoryState.anyUnset (s : FactoryState) : Bool :=
  !s.allSet

/-- Log levels used by the factory module's logger. -/
inductive LogLevel where
  | info
  | warning
deriving DecidableEq

/-- One record emitted through the factory module's logger. -/
structure LogEntry where
  level : LogLevel
  message : String
deriving DecidableEq

/-- A Python exception escaping `create_pyobjc_bridge`: either an
`ImportError` or any other exception raised while constructing the real
bridges. -/
inductive PyError where
  | importError (msg : String)
  | otherError (msg : String)
deriving DecidableEq

/-- Modelled from the spec: the outcome of `from .real_bridge import ...`
together with the construction of the three real bridge objects
(`real_bridge.py` is not among the shown sources). `importError` is the
native-binding-unavailable failure; `otherError` is any non-`ImportError`
exception. -/
inductive RealOutcome where
  | ok
  | importError (msg : String)
  | otherError (msg : String)
deriving DecidableEq

/-- Modelled from the spec: the environment read by the factory — the global
test-mode indicator (`is_test_mode` from `core/registry.py`, not among the
shown sources) and the outcome of loading the real PyObjC binding. -/
structure Env where
  isTestMode : Bool
  realOutcome : RealOutcome
deriving DecidableEq

/-- The triple built by a default-constructed set of fake bridges
(`FakePyObjCBridge()`, `FakeWorkspaceBridge()`, `FakeApplicationBridge()`). -/
def defaultFakeTriple : BridgeTriple :=
  ⟨.fakePyObjCBridge Option.none, .fakeWorkspaceBridge Option.none,
   .fakeApplicationBridge⟩

/-- The triple built from the real bridge classes. -/
def realTriple : BridgeTriple :=
  ⟨.realPyObjCBridge, .realWorkspaceBridge, .realApplicationBridge⟩

/-- `create_fake_bridges_with_system` from `bridges/factory.py`: builds a
fake bridge triple from explicit fixture data.  The Python function neither
reads nor writes the module-level singleton slots, so the embedding returns
the state unchanged. -/
def create_fake_bridges_with_system
    (applications : List (Nat × FakeAXUIElement))
    (running_apps : List FakeNSRunningApplication)
    (s : FactoryState) : BridgeTriple × FactoryState :=
  (⟨.fakePyObjCBridge (Option.some applications),
    .fakeWorkspaceBridge (Option.some running_apps),
    .fakeApplicationBridge⟩, s)

/-- `create_pyobjc_bridge` from `bridges/factory.py`.  It only reads the
singleton slots (the early-return check in test mode), never writes them;
the returned state is always the input state. -/
def create_pyobjc_bridge (env : Env) (force_fake : Bool) (s : FactoryState) :
    (List LogEntry × Except PyError BridgeTriple) × FactoryState :=
  let use_fake := force_fake || env.isTestMode
  match use_fake, s.pyobjcBridge, s.workspaceBridge, s.applicationBridge with
  | true, Option.some p, Option.some w, Option.some a =>
      (([], Except.ok ⟨p, w, a⟩), s)
  | _, _, _, _ =>
      if use_fake then
        (([⟨.info, "Using fake PyObjC bridge for testing"⟩],
          Except.ok defaultFakeTriple), s)
      else
        match env.realOutcome with
        | .ok =>
            (([⟨.info, "Using real PyObjC bridge"⟩], Except.ok realTriple), s)
        | .importError msg =>
            (([⟨.info, "Using real PyObjC bridge"⟩,
               ⟨.warning, "Failed to import real PyObjC bridge: " ++ msg⟩,
               ⟨.info, "Falling back to fake PyObjC bridge"⟩],
              Except.ok defaultFakeTriple), s)
        | .otherError msg =>
            (([⟨.info, "Using real PyObjC bridge"⟩],
              Except.error (.otherError msg)), s)

/-- `get_pyobjc_bridge` from `bridges/factory.py`: if any slot is `None`,
rebuild all three via `create_pyobjc_bridge()` and store them; then return
the first slot.  If construction raises, the exception propagates and the
slots are left untouched. -/
def get_pyobjc_bridge (env : Env) (s : FactoryState) :
    (List LogEntry × Except PyError PyObjCBridge) × FactoryState :=
  match s.pyobjcBridge, s.workspaceBridge, s.applicationBridge with
  | Option.some p, Option.some _, Option.some _ => (([], Except.ok p), s)
  | _, _, _ =>
      match (create_pyobjc_bridge env false s).1 with
      | (log, Except.ok t) =>
          ((log, Except.ok t.pyobjc),
           ⟨Option.some t.pyobjc, Option.some t.workspace,
            Option.some t.application⟩)
      | (log, Except.error e) => ((log, Except.error e), s)

/-- `get_workspace_bridge` from `bridges/factory.py`. -/
def get_workspace_bridge (env : Env) (s : FactoryState) :
    (List LogEntry × Except PyError WorkspaceBridge) × FactoryState :=
  match s.pyobjcBridge, s.workspaceBridge, s.applicationBridge with
  | Option.some _, Option.some w, Option.some _ => (([], Except.ok w), s)
  | _, _, _ =>
      match (create_pyobjc_bridge env false s).1 with
      | (log, Except.ok t) =>
          ((log, Except.ok t.workspace),
           ⟨Option.some t.pyobjc, Option.some t.workspace,
            Option.some t.application⟩)
      | (log, Except.error e) => ((log, Except.error e), s)

/-- `get_application_bridge` from `bridges/factory.py`. -/
def get_application_bridge (env : Env) (s : FactoryState) :
    (List LogEntry × Except PyError ApplicationBridge) × FactoryState :=
  match s.pyobjcBridge, s.workspaceBridge, s.applicationBridge with
  | Option.some _, Option.some _, Option.some a => (([], Except.ok a), s)
  | _, _, _ =>
      match (create_pyobjc_bridge env false s).1 with
      | (log, Except.ok t) =>
          ((log, Except.ok t.application),
           ⟨Option.some t.pyobjc, Option.some t.workspace,
            Option.some t.application⟩)
      | (log, Except.error e) => ((log, Except.error e), s)

/-- `reset_bridges` from `bridges/factory.py`: clears all three slots. -/
def reset_bridges (_s : FactoryState) : Unit × FactoryState :=
  ((), ⟨Option.none, Option.none, Option.none⟩)

/-- `set_bridge_instances` from `bridges/factory.py`: overwrites all three
slots with the given instances. -/
def set_bridge_instances (pyobjc_bridge : PyObjCBridge)
    (workspace_bridge : WorkspaceBridge)
    (application_bridge : ApplicationBridge)
    (_s : FactoryState) : Unit × FactoryState :=
  ((), ⟨Option.some pyobjc_bridge, Option.some workspace_bridge,
        Option.some application_bridge⟩)

/-- One call against the factory module, for stating trace properties. -/
inductive FactoryOp where
  | getPy
  | getWs
  | getApp
  | reset
  | setInstances (p : PyObjCBridge) (w : WorkspaceBridge) (a : ApplicationBridge)
deriving DecidableEq

/-- The three lazy accessors of the factory. -/
def FactoryOp.isAccessor : FactoryOp → Bool
  | .getPy | .getWs | .getApp => true
  | _ => false

/-- Effect of one factory call on the singleton slots. -/
def runOp (env : Env) (s : FactoryState) : FactoryOp → FactoryState
  | .getPy => (get_pyobjc_bridge env s).2
  | .getWs => (get_workspace_bridge env s).2
  | .getApp => (get_application_bridge env s).2
  | .reset => (reset_bridges s).2
  | .setInstances p w a => (set_bridge_instances p w a s).2

/-- Effect of a sequence of factory calls on the singleton slots. -/
def runOps (env : Env) : FactoryState → List FactoryOp → FactoryState
  | s, [] => s
  | s, op :: ops => runOps env (runOp env s op) ops

/-- Modelled from the spec: a Python value crossing the validation and
serialization boundary of `models/types.py` (whose implementation is not
among the shown sources): `None`, booleans, ints, floats (represented
exactly as rationals, since all inputs in scope are decimal literals),
strings, lists and string-keyed mappings. -/
inductive PyValue where
  | none
  | boolean (b : Bool)
  | int (n : Int)
  | float (q : Rat)
  | str (s : String)
  | list (xs : List PyValue)
  | dict (entries : List (String × PyValue))

/-- Modelled from the spec: a serializable scalar, the type of the
`value` field of `UIElement`. -/
inductive Scalar where
  | boolVal (b : Bool)
  | intVal (n : Int)
  | floatVal (q : Rat)
  | strVal (s : String)
deriving DecidableEq

/-- Modelled from the spec: `Position` — integer screen coordinates, any
sign allowed. -/
structure Position where
  x : Int
  y : Int
deriving DecidableEq

/-- Modelled from the spec: `Size` — integer width and height, both ≥ 0
(the invariant is carried by `Nat`). -/
structure Size where
  width : Nat
  height : Nat
deriving DecidableEq

/-- Modelled from the spec: `UIElement` — a node of the accessibility tree
with required `role` and `element_type` and optional attributes, where
absence of an optional field is distinct from a false/zero value. -/
inductive UIElement where
  | mk (role : String) (element_type : String)
      (title : Option String) (ax_identifier : Option String)
      (enabled : Option Bool) (focused : Option Bool)
      (position : Option Position) (size : Option Size)
      (value : Option Scalar) (actions : Option (List String))
      (children_count : Option Int) (children : Option (List UIElement))

/-- Modelled from the spec: `WindowState` — the root of a window's element
tree, with required `title` and `window_id`. -/
structure WindowState where
  title : String
  window_id : Int
  position : Option Position
  size : Option Size
  minimized : Option Bool
  children : Option (List UIElement)

/-- Modelled from the spec: `MenuBarItem` — a recursive menu node with
required `title` and `enabled` and an optional `submenu`. -/
inductive MenuBarItem where
  | mk (title : String) (enabled : Bool) (submenu : Option (List MenuBarItem))

/-- Modelled from the spec: Python `int()` applied to a float — truncation
toward zero ("truncation, not rounding"), as exercised by
`TestPosition.test_float_conversion`; computed as t-division of the exact
numerator by the denominator. -/
def pyTruncate (q : Rat) : Int :=
  q.num.tdiv q.den

/-- A validation failure naming the offending field. -/
structure ValidationError where
  field : String
  message : String
deriving DecidableEq

/-- Result of validating a construction input. -/
abbrev V (α : Type) := Except ValidationError α

/-- Keyword-argument lookup in a construction mapping: the value bound to
the first occurrence of the key, if any. -/
def lookupField (fld : String) : List (String × PyValue) → Option PyValue
  | [] => Option.none
  | (k, v) :: rest => if k = fld then Option.some v else lookupField fld rest

/-- Modelled from the spec: coercion of an input to an integer field —
ints pass through, floats are truncated, everything else is rejected. -/
def coerceInt (fld : String) : PyValue → V Int
  | .int n => Except.ok n
  | .float q => Except.ok (pyTruncate q)
  | _ => Except.error ⟨fld, "Input should be a valid integer"⟩

/-- Modelled from the spec: coercion to a non-negative integer field
(`Size.width`, `Size.height`). -/
def coerceNonnegInt (fld : String) (v : PyValue) : V Nat :=
  match coerceInt fld v with
  | Except.error e => Except.error e
  | Except.ok n =>
      if n < 0 then
        Except.error ⟨fld, "Input should be greater than or equal to 0"⟩
      else
        Except.ok n.toNat

/-- Modelled from the spec: boolean fields reject non-boolean values. -/
def coerceBool (fld : String) : PyValue → V Bool
  | .boolean b => Except.ok b
  | _ => Except.error ⟨fld, "Input should be a valid boolean"⟩

/-- Modelled from the spec: string fields accept strings only. -/
def coerceStr (fld : String) : PyValue → V String
  | .str s => Except.ok s
  | _ => Except.error ⟨fld, "Input should be a valid string"⟩

/-- Modelled from the spec: the `value` field accepts any serializable
scalar. -/
def coerceScalar (fld : String) : PyValue → V Scalar
  | .boolean b => Except.ok (.boolVal b)
  | .int n => Except.ok (.intVal n)
  | .float q => Except.ok (.floatVal q)
  | .str s => Except.ok (.strVal s)
  | _ => Except.error ⟨fld, "Input should be a serializable scalar"⟩

/-- Validation of a list of strings, element by element. -/
def coerceStrListAux (fld : String) : List PyValue → V (List String)
  | [] => Except.ok []
  | v :: vs =>
      match coerceStr fld v with
      | Except.error e => Except.error e
      | Except.ok s =>
          match coerceStrListAux fld vs with
          | Except.error e => Except.error e
          | Except.ok ss => Except.ok (s :: ss)

/-- Modelled from the spec: the `actions` field — an ordered sequence of
native action identifier strings. -/
def coerceStrList (fld : String) : PyValue → V (List String)
  | .list xs => coerceStrListAux fld xs
  | _ => Except.error ⟨fld, "Input should be a valid list"⟩

/-- Validation of a present optional input: an explicit `None` yields an
absent field, anything else goes through the field's coercion. -/
def parseOptVal (coerce : PyValue → V α) : PyValue → V (Option α)
  | PyValue.none => Except.ok Option.none
  | v =>
      match coerce v with
      | Except.error e => Except.error e
      | Except.ok x => Except.ok (Option.some x)

/-- An optional field: omitted or explicit `None` means absent. -/
def optionalField (coerce : PyValue → V α) (fld : String)
    (d : List (String × PyValue)) : V (Option α) :=
  match lookupField fld d with
  | Option.none => Except.ok Option.none
  | Option.some v => parseOptVal coerce v

/-- A required field: omission is a validation failure naming the field. -/
def requiredField (coerce : PyValue → V α) (fld : String)
    (d : List (String × PyValue)) : V α :=
  match lookupField fld d with
  | Option.none => Except.error ⟨fld, "Field required"⟩
  | Option.some v => coerce v

/-- Serialization of an optional field: the chosen policy is pydantic's
default, an explicit `None` for an absent field. -/
def optPlain (f : α → PyValue) : Option α → PyValue
  | Option.none => PyValue.none
  | Option.some x => f x

/-- `model_dump` of a `Scalar` value. -/
def Scalar.toPlain : Scalar → PyValue
  | .boolVal b => .boolean b
  | .intVal n => .int n
  | .floatVal q => .float q
  | .strVal s => .str s

/-- `Position.model_dump`: `{"x": ..., "y": ...}`. -/
def Position.toPlain (p : Position) : PyValue :=
  .dict [("x", .int p.x), ("y", .int p.y)]

/-- Validation of `Position` construction from keyword arguments. -/
def Position.fromDict (d : List (String × PyValue)) : V Position :=
  match requiredField (coerceInt "x") "x" d with
  | Except.error e => Except.error e
  | Except.ok x =>
      match requiredField (coerceInt "y") "y" d with
      | Except.error e => Except.error e
      | Except.ok y => Except.ok ⟨x, y⟩

/-- Reconstruction of a `Position` from serialized plain data. -/
def Position.fromPlain : PyValue → V Position
  | .dict d => Position.fromDict d
  | _ => Except.error ⟨"position", "Input should be a valid mapping"⟩

/-- `Size.model_dump`: `{"width": ..., "height": ...}`. -/
def Size.toPlain (s : Size) : PyValue :=
  .dict [("width", .int (s.width : Int)), ("height", .int (s.height : Int))]

/-- Validation of `Size` construction from keyword arguments. -/
def Size.fromDict (d : List (String × PyValue)) : V Size :=
  match requiredField (coerceNonnegInt "width") "width" d with
  | Except.error e => Except.error e
  | Except.ok w =>
      match requiredField (coerceNonnegInt "height") "height" d with
      | Except.error e => Except.error e
      | Except.ok h => Except.ok ⟨w, h⟩

/-- Reconstruction of a `Size` from serialized plain data. -/
def Size.fromPlain : PyValue → V Size
  | .dict d => Size.fromDict d
  | _ => Except.error ⟨"size", "Input should be a valid mapping"⟩

mutual

/-- `UIElement.model_dump`: a mapping with the same field names, nested
models as nested mappings, absent optional fields as explicit `None`. -/
def UIElement.toPlain : UIElement → PyValue
  | .mk role etype title axid en fo pos sz va ac cc children =>
      .dict [("role", .str role), ("element_type", .str etype),
             ("title", optPlain PyValue.str title),
             ("ax_identifier", optPlain PyValue.str axid),
             ("enabled", optPlain PyValue.boolean en),
             ("focused", optPlain PyValue.boolean fo),
             ("position", optPlain Position.toPlain pos),
             ("size", optPlain Size.toPlain sz),
             ("value", optPlain Scalar.toPlain va),
             ("actions",
              optPlain (fun l => PyValue.list (l.map PyValue.str)) ac),
             ("children_count", optPlain PyValue.int cc),
             ("children", UIElement.childrenToPlain children)]

/-- Serialization of an optional list of child elements. -/
def UIElement.childrenToPlain : Option (List UIElement) → PyValue
  | Option.none => PyValue.none
  | Option.some cs => PyValue.list (UIElement.listToPlain cs)

/-- Serialization of a list of child elements. -/
def UIElement.listToPlain : List UIElement → List PyValue
  | [] => []
  | e :: es => UIElement.toPlain e :: UIElement.listToPlain es

end

/-- `WindowState.model_dump`. -/
def WindowState.toPlain (w : WindowState) : PyValue :=
  .dict [("title", .str w.title), ("window_id", .int w.window_id),
         ("position", optPlain Position.toPlain w.position),
         ("size", optPlain Size.toPlain w.size),
         ("minimized", optPlain PyValue.boolean w.minimized),
         ("children", UIElement.childrenToPlain w.children)]

mutual

/-- `MenuBarItem.model_dump`. -/
def MenuBarItem.toPlain : MenuBarItem → PyValue
  | .mk title en submenu =>
      .dict [("title", .str title), ("enabled", .boolean en),
             ("submenu", MenuBarItem.submenuToPlain submenu)]

/-- Serialization of an optional submenu. -/
def MenuBarItem.submenuToPlain : Option (List MenuBarItem) → PyValue
  | Option.none => PyValue.none
  | Option.some ms => PyValue.list (MenuBarItem.listToPlain ms)

/-- Serialization of a list of menu items. -/
def MenuBarItem.listToPlain : List MenuBarItem → List PyValue
  | [] => []
  | m :: ms => MenuBarItem.toPlain m :: MenuBarItem.listToPlain ms

end

/-- The result of a keyword lookup is structurally smaller than the
mapping; packaged as a definition because the recursive validators below
need it in their termination arguments. -/
def lookupField_sizeOf_bound (fld : String) :
    ∀ d : List (String × PyValue), sizeOf (lookupField fld d) < 1 + sizeOf d
  | [] => by simp [lookupField]
  | (k, v) :: rest => by
      by_cases h : k = fld
      · simp only [lookupField, h, if_pos]
        simp
        omega
      · simp only [lookupField, h, if_neg, not_false_iff]
        have hrec := lookupField_sizeOf_bound fld rest
        simp only [List.cons.sizeOf_spec]
        omega

mutual

/-- Validation of `UIElement` construction from a mapping (keyword
arguments or serialized plain data); anything other than a mapping is
rejected. -/
def UIElement.fromPlain : PyValue → V UIElement
  | .dict d =>
      match requiredField (coerceStr "role") "role" d with
      | Except.error e => Except.error e
      | Except.ok role =>
      match requiredField (coerceStr "element_type") "element_type" d with
      | Except.error e => Except.error e
      | Except.ok etype =>
      match optionalField (coerceStr "title") "title" d with
      | Except.error e => Except.error e
      | Except.ok title =>
      match optionalField (coerceStr "ax_identifier") "ax_identifier" d with
      | Except.error e => Except.error e
      | Except.ok axid =>
      match optionalField (coerceBool "enabled") "enabled" d with
      | Except.error e => Except.error e
      | Except.ok en =>
      match optionalField (coerceBool "focused") "focused" d with
      | Except.error e => Except.error e
      | Except.ok fo =>
      match optionalField Position.fromPlain "position" d with
      | Except.error e => Except.error e
      | Except.ok pos =>
      match optionalField Size.fromPlain "size" d with
      | Except.error e => Except.error e
      | Except.ok sz =>
      match optionalField (coerceScalar "value") "value" d with
      | Except.error e => Except.error e
      | Except.ok va =>
      match optionalField (coerceStrList "actions") "actions" d with
      | Except.error e => Except.error e
      | Except.ok ac =>
      match optionalField (coerceInt "children_count") "children_count" d with
      | Except.error e => Except.error e
      | Except.ok cc =>
      match UIElement.childrenFromPlain (lookupField "children" d) with
      | Except.error e => Except.error e
      | Except.ok children =>
          Except.ok (.mk role etype title axid en fo pos sz va ac cc children)
  | _ => Except.error ⟨"uielement", "Input should be a valid mapping"⟩
termination_by v => sizeOf v
decreasing_by
  all_goals simp_wf
  have := lookupField_sizeOf_bound "children" d
  try simp only [PyValue.dict.sizeOf_spec]
  omega

/-- Validation of the optional recursive `children` field. -/
def UIElement.childrenFromPlain : Option PyValue → V (Option (List UIElement))
  | Option.none => Except.ok Option.none
  | Option.some PyValue.none => Except.ok Option.none
  | Option.some (PyValue.list xs) =>
      match UIElement.listFromPlain xs with
      | Except.error e => Except.error e
      | Except.ok cs => Except.ok (Option.some cs)
  | Option.some _ => Except.error ⟨"children", "Input should be a valid list"⟩
termination_by o => sizeOf o
decreasing_by
  all_goals simp_wf
  try simp only [PyValue.list.sizeOf_spec, Option.some.sizeOf_spec]
  omega

/-- Validation of a list of child elements, element by element. -/
def UIElement.listFromPlain : List PyValue → V (List UIElement)
  | [] => Except.ok []
  | v :: vs =>
      match UIElement.fromPlain v with
      | Except.error e => Except.error e
      | Except.ok c =>
          match UIElement.listFromPlain vs with
          | Except.error e => Except.error e
          | Except.ok cs => Except.ok (c :: cs)
termination_by l => sizeOf l
decreasing_by
  all_goals simp_wf
  all_goals omega

end

/-- Validation of `UIElement` construction from keyword arguments. -/
def UIElement.construct (d : List (String × PyValue)) : V UIElement :=
  UIElement.fromPlain (.dict d)

/-- Validation of `WindowState` construction from keyword arguments. -/
def WindowState.fromDict (d : List (String × PyValue)) : V WindowState :=
  match requiredField (coerceStr "title") "title" d with
  | Except.error e => Except.error e
  | Except.ok title =>
  match requiredField (coerceInt "window_id") "window_id" d with
  | Except.error e => Except.error e
  | Except.ok wid =>
  match optionalField Position.fromPlain "position" d with
  | Except.error e => Except.error e
  | Except.ok pos =>
  match optionalField Size.fromPlain "size" d with
  | Except.error e => Except.error e
  | Except.ok sz =>
  match optionalField (coerceBool "minimized") "minimized" d with
  | Except.error e => Except.error e
  | Except.ok mini =>
  match UIElement.childrenFromPlain (lookupField "children" d) with
  | Except.error e => Except.error e
  | Except.ok children => Except.ok ⟨title, wid, pos, sz, mini, children⟩

/-- Reconstruction of a `WindowState` from serialized plain data. -/
def WindowState.fromPlain : PyValue → V WindowState
  | .dict d => WindowState.fromDict d
  | _ => Except.error ⟨"windowstate", "Input should be a valid mapping"⟩

mutual

/-- Validation of `MenuBarItem` construction from a mapping. -/
def MenuBarItem.fromPlain : PyValue → V MenuBarItem
  | .dict d =>
      match requiredField (coerceStr "title") "title" d with
      | Except.error e => Except.error e
      | Except.ok title =>
      match requiredField (coerceBool "enabled") "enabled" d with
      | Except.error e => Except.error e
      | Except.ok en =>
      match MenuBarItem.submenuFromPlain (lookupField "submenu" d) with
      | Except.error e => Except.error e
      | Except.ok submenu => Except.ok (.mk title en submenu)
  | _ => Except.error ⟨"menubaritem", "Input should be a valid mapping"⟩
termination_by v => sizeOf v
decreasing_by
  all_goals simp_wf
  have := lookupField_sizeOf_bound "submenu" d
  try simp only [PyValue.dict.sizeOf_spec]
  omega

/-- Validation of the optional recursive `submenu` field. -/
def MenuBarItem.submenuFromPlain :
    Option PyValue → V (Option (List MenuBarItem))
  | Option.none => Except.ok Option.none
  | Option.some PyValue.none => Except.ok Option.none
  | Option.some (PyValue.list xs) =>
      match MenuBarItem.listFromPlain xs with
      | Except.error e => Except.error e
      | Except.ok ms => Except.ok (Option.some ms)
  | Option.some _ => Except.error ⟨"submenu", "Input should be a valid list"⟩
termination_by o => sizeOf o
decreasing_by
  all_goals simp_wf
  try simp only [PyValue.list.sizeOf_spec, Option.some.sizeOf_spec]
  omega

/-- Validation of a list of menu items, element by element. -/
def MenuBarItem.listFromPlain : List PyValue → V (List MenuBarItem)
  | [] => Except.ok []
  | v :: vs =>
      match MenuBarItem.fromPlain v with
      | Except.error e => Except.error e
      | Except.ok m =>
          match MenuBarItem.listFromPlain vs with
          | Except.error e => Except.error e
          | Except.ok ms => Except.ok (m :: ms)
termination_by l => sizeOf l
decreasing_by
  all_goals simp_wf
  all_goals omega

end

/-- Validation of `MenuBarItem` construction from keyword arguments. -/
def MenuBarItem.construct (d : List (String × PyValue)) : V MenuBarItem :=
  MenuBarItem.fromPlain (.dict d)


theorem pyTruncate_of_nonneg (q : Rat) (h : 0 ≤ q) : pyTruncate q = ⌊q⌋ := by
  have hn : 0 ≤ q.num := Rat.num_nonneg.mpr h
  have hd : (0 : Int) ≤ (q.den : Int) := Int.ofNat_nonneg _
  rw [pyTruncate, Int.tdiv_eq_ediv hn hd, Rat.floor_def]

theorem pyTruncate_of_nonpos (q : Rat) (h : q ≤ 0) : pyTruncate q = ⌈q⌉ := by
  have h2 : 0 ≤ -q := neg_nonneg.mpr h
  have hn : 0 ≤ (-q).num := Rat.num_nonneg.mpr h2
  rw [Rat.neg_num] at hn
  have hd : (0 : Int) ≤ (q.den : Int) := Int.ofNat_nonneg _
  have hfl : ⌊-q⌋ = (-q.num) / (q.den : Int) := by
    rw [Rat.floor_def, Rat.neg_num, Rat.neg_den]
  have htd : q.num.tdiv (q.den : Int) = -((-q.num).tdiv (q.den : Int)) := by
    rw [Int.neg_tdiv, neg_neg]
  rw [pyTruncate, htd, Int.tdiv_eq_ediv hn hd, ← hfl, Int.floor_neg, neg_neg]

theorem parseOpt_str (fld : String) (o : Option String) :
    parseOptVal (coerceStr fld) (optPlain PyValue.str o) = Except.ok o := by
  cases o <;> rfl

theorem parseOpt_bool (fld : String) (o : Option Bool) :
    parseOptVal (coerceBool fld) (optPlain PyValue.boolean o) = Except.ok o := by
  cases o <;> rfl

theorem parseOpt_int (fld : String) (o : Option Int) :
    parseOptVal (coerceInt fld) (optPlain PyValue.int o) = Except.ok o := by
  cases o <;> rfl

theorem parseOpt_scalar (fld : String) (o : Option Scalar) :
    parseOptVal (coerceScalar fld) (optPlain Scalar.toPlain o) = Except.ok o := by
  cases o with
  | none => rfl
  | some v => cases v <;> rfl

theorem coerceStrListAux_roundtrip (fld : String) (l : List String) :
    coerceStrListAux fld (l.map PyValue.str) = Except.ok l := by
  induction l with
  | nil => rfl
  | cons s ss ih => simp [List.map, coerceStrListAux, coerceStr, ih]

theorem parseOpt_strList (fld : String) (o : Option (List String)) :
    parseOptVal (coerceStrList fld)
      (optPlain (fun l => PyValue.list (l.map PyValue.str)) o) = Except.ok o := by
  cases o with
  | none => rfl
  | some l =>
      simp [optPlain, parseOptVal, coerceStrList, coerceStrListAux_roundtrip]

theorem position_roundtrip (p : Position) :
    Position.fromPlain (Position.toPlain p) = Except.ok p := by
  obtain ⟨x, y⟩ := p
  rfl

theorem parseOpt_position (o : Option Position) :
    parseOptVal Position.fromPlain (optPlain Position.toPlain o) = Except.ok o := by
  cases o with
  | none => rfl
  | some p => obtain ⟨x, y⟩ := p; rfl

theorem coerceNonnegInt_roundtrip (fld : String) (n : Nat) :
    coerceNonnegInt fld (PyValue.int (n : Int)) = Except.ok n := by
  have h : ¬((n : Int) < 0) := by
    simp
  simp [coerceNonnegInt, coerceInt, h]

theorem size_roundtrip (s : Size) :
    Size.fromPlain (Size.toPlain s) = Except.ok s := by
  obtain ⟨w, h⟩ := s
  simp [Size.toPlain, Size.fromPlain, Size.fromDict, requiredField, lookupField,
    coerceNonnegInt_roundtrip]

theorem parseOpt_size (o : Option Size) :
    parseOptVal Size.fromPlain (optPlain Size.toPlain o) = Except.ok o := by
  cases o with
  | none => rfl
  | some sz =>
      obtain ⟨w, h⟩ := sz
      simp [optPlain, parseOptVal, Size.toPlain, Size.fromPlain, Size.fromDict,
        requiredField, lookupField, coerceNonnegInt_roundtrip]

mutual

theorem UIElement.roundtrip (e : UIElement) :
    UIElement.fromPlain (UIElement.toPlain e) = Except.ok e := by
  cases e with
  | mk role etype title axid en fo pos sz va ac cc children =>
      simp [UIElement.toPlain, UIElement.fromPlain, requiredField, optionalField,
        lookupField, coerceStr, parseOpt_str, parseOpt_bool, parseOpt_int,
        parseOpt_scalar, parseOpt_strList, parseOpt_position, parseOpt_size,
        UIElement.childrenRound children]
termination_by sizeOf e

theorem UIElement.childrenRound (o : Option (List UIElement)) :
    UIElement.childrenFromPlain (Option.some (UIElement.childrenToPlain o))
      = Except.ok o := by
  cases o with
  | none => simp [UIElement.childrenToPlain, UIElement.childrenFromPlain]
  | some cs =>
      simp [UIElement.childrenToPlain, UIElement.childrenFromPlain,
        UIElement.listRound cs]
termination_by sizeOf o

theorem UIElement.listRound (l : List UIElement) :
    UIElement.listFromPlain (UIElement.listToPlain l) = Except.ok l := by
  cases l with
  | nil => simp [UIElement.listToPlain, UIElement.listFromPlain]
  | cons e es =>
      simp [UIElement.listToPlain, UIElement.listFromPlain,
        UIElement.roundtrip e, UIElement.listRound es]
termination_by sizeOf l

end

theorem windowstate_roundtrip (w : WindowState) :
    WindowState.fromPlain (WindowState.toPlain w) = Except.ok w := by
  obtain ⟨title, wid, pos, sz, mini, children⟩ := w
  simp [WindowState.toPlain, WindowState.fromPlain, WindowState.fromDict,
    requiredField, optionalField, lookupField, coerceStr, coerceInt,
    parseOpt_bool, parseOpt_position, parseOpt_size,
    UIElement.childrenRound children]

mutual

theorem MenuBarItem.menuRoundtrip (m : MenuBarItem) :
    MenuBarItem.fromPlain (MenuBarItem.toPlain m) = Except.ok m := by
  cases m with
  | mk title en submenu =>
      simp [MenuBarItem.toPlain, MenuBarItem.fromPlain, requiredField,
        lookupField, coerceStr, coerceBool, MenuBarItem.submenuRound submenu]
termination_by sizeOf m

theorem MenuBarItem.submenuRound (o : Option (List MenuBarItem)) :
    MenuBarItem.submenuFromPlain (Option.some (MenuBarItem.submenuToPlain o))
      = Except.ok o := by
  cases o with
  | none => simp [MenuBarItem.submenuToPlain, MenuBarItem.submenuFromPlain]
  | some ms =>
      simp [MenuBarItem.submenuToPlain, MenuBarItem.submenuFromPlain,
        MenuBarItem.menuListRound ms]
termination_by sizeOf o

theorem MenuBarItem.menuListRound (l : List MenuBarItem) :
    MenuBarItem.listFromPlain (MenuBarItem.listToPlain l) = Except.ok l := by
  cases l with
  | nil => simp [MenuBarItem.listToPlain, MenuBarItem.listFromPlain]
  | cons m ms =>
      simp [MenuBarItem.listToPlain, MenuBarItem.listFromPlain,
        MenuBarItem.menuRoundtrip m, MenuBarItem.menuListRound ms]
termination_by sizeOf l

end

theorem runOps_accessors_fixed (env : Env) (p : PyObjCBridge)
    (w : WorkspaceBridge) (a : ApplicationBridge) :
    ∀ ops : List FactoryOp, (∀ op ∈ ops, op.isAccessor = true) →
      runOps env ⟨Option.some p, Option.some w, Option.some a⟩ ops
        = ⟨Option.some p, Option.some w, Option.some a⟩
  | [], _ => rfl
  | op :: ops, h => by
      have hop := h op (List.mem_cons_self op ops)
      have hops := fun o ho => h o (List.mem_cons_of_mem op ho)
      cases op with
      | getPy => exact runOps_accessors_fixed env p w a ops hops
      | getWs => exact runOps_accessors_fixed env p w a ops hops
      | getApp => exact runOps_accessors_fixed env p w a ops hops
      | reset => simp [FactoryOp.isAccessor] at hop
      | setInstances p2 w2 a2 => simp [FactoryOp.isAccessor] at hop

/-- Claim C1: in real mode (`force_fake` false, test mode off), if loading
the native binding raises an `ImportError`, `create_pyobjc_bridge` returns a
triple of fake bridges, logs a warning carrying the cause, and does not
propagate the exception. -/
theorem fallback_to_fake_on_import_failure (msg : String) (s : FactoryState) :
    create_pyobjc_bridge ⟨false, .importError msg⟩ false s =
      (([⟨.info, "Using real PyObjC bridge"⟩,
         ⟨.warning, "Failed to import real PyObjC bridge: " ++ msg⟩,
         ⟨.info, "Falling back to fake PyObjC bridge"⟩],
        Except.ok defaultFakeTriple), s)
    ∧ defaultFakeTriple.isFake = true := by
  refine ⟨?_, rfl⟩
  obtain ⟨sp, sw, sa⟩ := s
  cases sp <;> cases sw <;> cases sa <;> rfl

/-- Claim C9: `create_fake_bridges_with_system` builds a fresh fake triple
from the given fixtures and leaves the three singleton slots untouched. -/
theorem create_fake_bridges_with_system_no_global_effects
    (apps : List (Nat × FakeAXUIElement)) (ra : List FakeNSRunningApplication)
    (s : FactoryState) :
    create_fake_bridges_with_system apps ra s =
      (⟨.fakePyObjCBridge (Option.some apps),
        .fakeWorkspaceBridge (Option.some ra),
        .fakeApplicationBridge⟩, s)
    ∧ (create_fake_bridges_with_system apps ra s).2 = s :=
  ⟨rfl, rfl⟩

/-- Claim C10: a non-`ImportError` exception raised by real-mode
construction propagates out of `create_pyobjc_bridge`; only `ImportError`
triggers the fallback to fake bridges. -/
theorem non_import_errors_propagate (msg : String) (s : FactoryState) :
    create_pyobjc_bridge ⟨false, .otherError msg⟩ false s =
      (([⟨.info, "Using real PyObjC bridge"⟩],
        Except.error (.otherError msg)), s)
    ∧ (∀ msg2 : String, ∃ t : BridgeTriple,
        (create_pyobjc_bridge ⟨false, .importError msg2⟩ false s).1.2
          = Except.ok t) := by
  obtain ⟨sp, sw, sa⟩ := s
  constructor
  · cases sp <;> cases sw <;> cases sa <;> rfl
  · intro msg2
    refine ⟨defaultFakeTriple, ?_⟩
    cases sp <;> cases sw <;> cases sa <;> rfl

/-- Claim C2: whenever at least one singleton slot is unset, each of the
three accessors rebuilds and stores the whole triple from
`create_pyobjc_bridge` before returning (or, if construction raises, leaves
the state untouched); no accessor call leaves the triple partially
initialized. -/
theorem accessor_full_triple_construction (env : Env) (s : FactoryState)
    (h : s.anyUnset = true) :
    (∀ log t, (create_pyobjc_bridge env false s).1 = (log, Except.ok t) →
      get_pyobjc_bridge env s
        = ((log, Except.ok t.pyobjc),
           ⟨Option.some t.pyobjc, Option.some t.workspace,
            Option.some t.application⟩)
      ∧ get_workspace_bridge env s
        = ((log, Except.ok t.workspace),
           ⟨Option.some t.pyobjc, Option.some t.workspace,
            Option.some t.application⟩)
      ∧ get_application_bridge env s
        = ((log, Except.ok t.application),
           ⟨Option.some t.pyobjc, Option.some t.workspace,
            Option.some t.application⟩))
    ∧ (∀ log e, (create_pyobjc_bridge env false s).1 = (log, Except.error e) →
        (get_pyobjc_bridge env s).2 = s
        ∧ (get_workspace_bridge env s).2 = s
        ∧ (get_application_bridge env s).2 = s)
    ∧ ((get_pyobjc_bridge env s).2.allSet = true ∨ (get_pyobjc_bridge env s).2 = s)
    ∧ ((get_workspace_bridge env s).2.allSet = true ∨ (get_workspace_bridge env s).2 = s)
    ∧ ((get_application_bridge env s).2.allSet = true ∨ (get_application_bridge env s).2 = s) := by
  obtain ⟨sp, sw, sa⟩ := s
  rcases hcr : (create_pyobjc_bridge env false ⟨sp, sw, sa⟩).1 with ⟨log0, res0⟩
  refine ⟨fun log t ht => ?_, fun log e he => ?_, ?_, ?_, ?_⟩
  · injection ht with h1 h2
    subst h1
    subst h2
    cases sp <;> cases sw <;> cases sa <;>
      simp_all [FactoryState.anyUnset, FactoryState.allSet,
        get_pyobjc_bridge, get_workspace_bridge, get_application_bridge]
  · injection he with h1 h2
    subst h1
    subst h2
    cases sp <;> cases sw <;> cases sa <;>
      simp_all [FactoryState.anyUnset, FactoryState.allSet,
        get_pyobjc_bridge, get_workspace_bridge, get_application_bridge]
  all_goals
    cases res0 with
    | error e2 =>
        right
        cases sp <;> cases sw <;> cases sa <;>
          simp_all [FactoryState.anyUnset, FactoryState.allSet,
            get_pyobjc_bridge, get_workspace_bridge, get_application_bridge]
    | ok t2 =>
        left
        cases sp <;> cases sw <;> cases sa <;>
          simp_all [FactoryState.anyUnset, FactoryState.allSet,
            get_pyobjc_bridge, get_workspace_bridge, get_application_bridge]

theorem accessor_full_triple_construction_witness :
    get_pyobjc_bridge ⟨true, RealOutcome.ok⟩
      ⟨Option.none, Option.none, Option.none⟩
      = (([⟨LogLevel.info, "Using fake PyObjC bridge for testing"⟩],
          Except.ok defaultFakeTriple.pyobjc),
         ⟨Option.some defaultFakeTriple.pyobjc,
          Option.some defaultFakeTriple.workspace,
          Option.some defaultFakeTriple.application⟩) :=
  ((accessor_full_triple_construction ⟨true, RealOutcome.ok⟩
      ⟨Option.none, Option.none, Option.none⟩ rfl).1
    [⟨LogLevel.info, "Using fake PyObjC bridge for testing"⟩]
    defaultFakeTriple rfl).1

/-- Claim C3: after `set_bridge_instances(p, w, a)`, every subsequent
accessor call (through any sequence of accessor calls) returns exactly the
injected instance; `reset_bridges()` clears all three slots, and the next
accessor call on the cleared state freshly constructs and stores all three
via `create_pyobjc_bridge`. -/
theorem injection_and_reset_semantics (env : Env) (p : PyObjCBridge)
    (w : WorkspaceBridge) (a : ApplicationBridge) (s : FactoryState)
    (ops : List FactoryOp) (hops : ∀ op ∈ ops, op.isAccessor = true) :
    runOps env (set_bridge_instances p w a s).2 ops
      = ⟨Option.some p, Option.some w, Option.some a⟩
    ∧ (get_pyobjc_bridge env (runOps env (set_bridge_instances p w a s).2 ops)).1
      = ([], Except.ok p)
    ∧ (get_workspace_bridge env (runOps env (set_bridge_instances p w a s).2 ops)).1
      = ([], Except.ok w)
    ∧ (get_application_bridge env (runOps env (set_bridge_instances p w a s).2 ops)).1
      = ([], Except.ok a)
    ∧ (reset_bridges s).2 = ⟨Option.none, Option.none, Option.none⟩
    ∧ (∀ log t,
        (create_pyobjc_bridge env false ⟨Option.none, Option.none, Option.none⟩).1
          = (log, Except.ok t) →
        get_pyobjc_bridge env (reset_bridges s).2
          = ((log, Except.ok t.pyobjc),
             ⟨Option.some t.pyobjc, Option.some t.workspace,
              Option.some t.application⟩)
        ∧ get_workspace_bridge env (reset_bridges s).2
          = ((log, Except.ok t.workspace),
             ⟨Option.some t.pyobjc, Option.some t.workspace,
              Option.some t.application⟩)
        ∧ get_application_bridge env (reset_bridges s).2
          = ((log, Except.ok t.application),
             ⟨Option.some t.pyobjc, Option.some t.workspace,
              Option.some t.application⟩)) := by
  have hrun : runOps env (set_bridge_instances p w a s).2 ops
      = ⟨Option.some p, Option.some w, Option.some a⟩ :=
    runOps_accessors_fixed env p w a ops hops
  refine ⟨hrun, ?_, ?_, ?_, rfl, fun log t ht => ?_⟩
  · rw [hrun]
    rfl
  · rw [hrun]
    rfl
  · rw [hrun]
    rfl
  · refine ⟨?_, ?_, ?_⟩ <;>
      simp [reset_bridges, get_pyobjc_bridge, get_workspace_bridge,
        get_application_bridge, ht]

theorem injection_and_reset_semantics_witness :
    (get_workspace_bridge ⟨false, RealOutcome.ok⟩
      (runOps ⟨false, RealOutcome.ok⟩
        (set_bridge_instances (.injected 1) (.injected 2) (.injected 3)
          ⟨Option.none, Option.none, Option.none⟩).2
        [FactoryOp.getPy, FactoryOp.getApp])).1
      = ([], Except.ok (.injected 2)) :=
  (injection_and_reset_semantics ⟨false, RealOutcome.ok⟩ (.injected 1)
      (.injected 2) (.injected 3) ⟨Option.none, Option.none, Option.none⟩
      [FactoryOp.getPy, FactoryOp.getApp] (by decide)).2.2.1

/-- Claim C4: an accessor call made while the triple is fully set returns
the stored instances and never mutates any slot; any sequence of accessor
calls leaves a fully set triple unchanged. -/
theorem set_triple_accessor_immutability (env : Env) (p : PyObjCBridge)
    (w : WorkspaceBridge) (a : ApplicationBridge) :
    get_pyobjc_bridge env ⟨Option.some p, Option.some w, Option.some a⟩
      = (([], Except.ok p), ⟨Option.some p, Option.some w, Option.some a⟩)
    ∧ get_workspace_bridge env ⟨Option.some p, Option.some w, Option.some a⟩
      = (([], Except.ok w), ⟨Option.some p, Option.some w, Option.some a⟩)
    ∧ get_application_bridge env ⟨Option.some p, Option.some w, Option.some a⟩
      = (([], Except.ok a), ⟨Option.some p, Option.some w, Option.some a⟩)
    ∧ (∀ ops : List FactoryOp, (∀ op ∈ ops, op.isAccessor = true) →
        runOps env ⟨Option.some p, Option.some w, Option.some a⟩ ops
          = ⟨Option.some p, Option.some w, Option.some a⟩) :=
  ⟨rfl, rfl, rfl, fun ops h => runOps_accessors_fixed env p w a ops h⟩

theorem set_triple_accessor_immutability_witness :
    runOps ⟨false, RealOutcome.ok⟩
      ⟨Option.some (.injected 1), Option.some (.injected 2),
       Option.some (.injected 3)⟩
      [FactoryOp.getPy, FactoryOp.getWs, FactoryOp.getApp]
      = ⟨Option.some (.injected 1), Option.some (.injected 2),
         Option.some (.injected 3)⟩ :=
  (set_triple_accessor_immutability ⟨false, RealOutcome.ok⟩ (.injected 1)
      (.injected 2) (.injected 3)).2.2.2
    [FactoryOp.getPy, FactoryOp.getWs, FactoryOp.getApp] (by decide)

/-- Claim C5: in fake mode (`force_fake` or the test-mode indicator set),
`create_pyobjc_bridge` returns exactly the already-stored instances when all
three slots are set, and constructs fresh default fakes only when some slot
is unset. -/
theorem fake_mode_reuses_injected_instances (env : Env) (ff : Bool)
    (h : (ff || env.isTestMode) = true) :
    (∀ p w a, create_pyobjc_bridge env ff
        ⟨Option.some p, Option.some w, Option.some a⟩
        = (([], Except.ok ⟨p, w, a⟩),
           ⟨Option.some p, Option.some w, Option.some a⟩))
    ∧ (∀ s : FactoryState, s.anyUnset = true →
        create_pyobjc_bridge env ff s
          = (([⟨.info, "Using fake PyObjC bridge for testing"⟩],
              Except.ok defaultFakeTriple), s)) := by
  obtain ⟨tm, ro⟩ := env
  constructor
  · intro p w a
    cases ff <;> cases tm <;> simp_all [create_pyobjc_bridge]
  · intro s hs
    obtain ⟨sp, sw, sa⟩ := s
    cases sp <;> cases sw <;> cases sa <;> cases ff <;> cases tm <;>
      simp_all [create_pyobjc_bridge, FactoryState.anyUnset, FactoryState.allSet]

theorem fake_mode_reuses_injected_instances_witness :
    create_pyobjc_bridge ⟨true, RealOutcome.ok⟩ false
      ⟨Option.some (.injected 1), Option.some (.injected 2),
       Option.some (.injected 3)⟩
      = (([], Except.ok ⟨.injected 1, .injected 2, .injected 3⟩),
         ⟨Option.some (.injected 1), Option.some (.injected 2),
          Option.some (.injected 3)⟩) :=
  (fake_mode_reuses_injected_instances ⟨true, RealOutcome.ok⟩ false rfl).1
    (.injected 1) (.injected 2) (.injected 3)

/-- Claim C6: for every instance of each Data Model type, validating the
serialized plain data reconstructs an equal instance (round-trip law). -/
theorem model_roundtrip_law :
    (∀ p : Position, Position.fromPlain (Position.toPlain p) = Except.ok p)
    ∧ (∀ s : Size, Size.fromPlain (Size.toPlain s) = Except.ok s)
    ∧ (∀ e : UIElement, UIElement.fromPlain (UIElement.toPlain e) = Except.ok e)
    ∧ (∀ w : WindowState, WindowState.fromPlain (WindowState.toPlain w) = Except.ok w)
    ∧ (∀ m : MenuBarItem, MenuBarItem.fromPlain (MenuBarItem.toPlain m) = Except.ok m) :=
  ⟨fun p => position_roundtrip p, fun s => size_roundtrip s,
   fun e => UIElement.roundtrip e, fun w => windowstate_roundtrip w,
   fun m => MenuBarItem.menuRoundtrip m⟩

/-- Claim C7: `Position` accepts integer coordinates of any sign, and a
fractional input is truncated toward its integer part (floor for
non-negative inputs, ceiling for non-positive ones — truncation toward
zero, not rounding); in particular x=10.7, y=20.3 yields x=10, y=20. -/
theorem position_coordinate_truncation :
    (∀ n m : Int,
      Position.fromDict [("x", PyValue.int n), ("y", PyValue.int m)]
        = Except.ok ⟨n, m⟩)
    ∧ (∀ q r : Rat, 0 ≤ q → 0 ≤ r →
        Position.fromDict [("x", PyValue.float q), ("y", PyValue.float r)]
          = Except.ok ⟨⌊q⌋, ⌊r⌋⟩)
    ∧ (∀ q r : Rat, q ≤ 0 → r ≤ 0 →
        Position.fromDict [("x", PyValue.float q), ("y", PyValue.float r)]
          = Except.ok ⟨⌈q⌉, ⌈r⌉⟩) := by
  refine ⟨fun n m => rfl, fun q r hq hr => ?_, fun q r hq hr => ?_⟩
  · have h1 : Position.fromDict [("x", PyValue.float q), ("y", PyValue.float r)]
        = Except.ok ⟨pyTruncate q, pyTruncate r⟩ := rfl
    rw [h1, pyTruncate_of_nonneg q hq, pyTruncate_of_nonneg r hr]
  · have h1 : Position.fromDict [("x", PyValue.float q), ("y", PyValue.float r)]
        = Except.ok ⟨pyTruncate q, pyTruncate r⟩ := rfl
    rw [h1, pyTruncate_of_nonpos q hq, pyTruncate_of_nonpos r hr]

theorem position_coordinate_truncation_witness :
    Position.fromDict [("x", PyValue.float ((107 : Rat) / 10)),
                       ("y", PyValue.float ((203 : Rat) / 10))]
      = Except.ok ⟨10, 20⟩ := by
  have h := position_coordinate_truncation.2.1 ((107 : Rat) / 10)
    ((203 : Rat) / 10) (by norm_num) (by norm_num)
  rw [h]
  have hx : ⌊(107 : Rat) / 10⌋ = 10 := by
    rw [Int.floor_eq_iff]
    norm_num
  have hy : ⌊(203 : Rat) / 10⌋ = 20 := by
    rw [Int.floor_eq_iff]
    norm_num
  rw [hx, hy]

/-- Claim C8: constructing a Data Model instance with a missing required
field, or with a field value that cannot be coerced to its declared type,
fails with a `ValidationError` naming the offending field; in particular a
`UIElement` with no arguments fails on the required `role`, and a
`UIElement` whose `enabled` is the string "not_a_boolean" fails instead of
coercing the string to a truthy boolean. -/
theorem validation_failure_contract :
    (∀ d, lookupField "x" d = Option.none →
      Position.fromDict d = Except.error ⟨"x", "Field required"⟩)
    ∧ (∀ d, lookupField "width" d = Option.none →
        Size.fromDict d = Except.error ⟨"width", "Field required"⟩)
    ∧ (∀ d, lookupField "role" d = Option.none →
        UIElement.construct d = Except.error ⟨"role", "Field required"⟩)
    ∧ (∀ d, lookupField "title" d = Option.none →
        WindowState.fromDict d = Except.error ⟨"title", "Field required"⟩)
    ∧ (∀ d, lookupField "title" d = Option.none →
        MenuBarItem.construct d = Except.error ⟨"title", "Field required"⟩)
    ∧ UIElement.construct [] = Except.error ⟨"role", "Field required"⟩
    ∧ (∀ role etype : String,
        UIElement.construct
          [("role", PyValue.str role), ("element_type", PyValue.str etype),
           ("enabled", PyValue.str "not_a_boolean")]
          = Except.error ⟨"enabled", "Input should be a valid boolean"⟩) := by
  refine ⟨fun d hd => ?_, fun d hd => ?_, fun d hd => ?_, fun d hd => ?_,
    fun d hd => ?_, ?_, fun role etype => ?_⟩
  · simp [Position.fromDict, requiredField, hd]
  · simp [Size.fromDict, requiredField, hd]
  · simp [UIElement.construct, UIElement.fromPlain, requiredField, hd]
  · simp [WindowState.fromDict, requiredField, hd]
  · simp [MenuBarItem.construct, MenuBarItem.fromPlain, requiredField, hd]
  · simp [UIElement.construct, UIElement.fromPlain, requiredField, lookupField]
  · simp [UIElement.construct, UIElement.fromPlain, requiredField,
      optionalField, lookupField, coerceStr, parseOptVal, coerceBool]

theorem validation_failure_contract_witness :
    Position.fromDict [("y", PyValue.int 5)]
      = Except.error ⟨"x", "Field required"⟩ :=
  validation_failure_contract.1 [("y", PyValue.int 5)] rfl
